import Mathlib

/-!
Verification of the Ve_Joias checkout / reconciliation core.

This file gives a shallow embedding of the business core of the repository
(`vejoias/core/entities.py` and `vejoias/core/use_cases.py`, plus the
session-cart helper `vejoias/presentation/cart_manager.py`) and proves or
refutes the frozen specification claims against it.

Modelling conventions:
* Python `Decimal` values (prices, totals) are embedded as `Rat`, which is
  exact, like `Decimal` arithmetic on the operations the core performs
  (addition and multiplication by integers).
* Python `int` quantities and stock counts are embedded as `Int` (Python
  integers are signed and the code performs no sign checks of its own).
* Statuses and identifiers are `String`s, exactly as in the source.
* Exceptions become `Except` error values; an exception type that the code
  never catches is a distinct constructor so that "propagates unchanged"
  is observable.
* The repositories (`repo_joias`, `carrinho_repo`, `pedido_repo`) and the
  notification log are folded into one explicit state record `Loja`;
  the payment gateway is an oracle function passed as a parameter, and the
  success/failure of each notification channel is a Boolean parameter.
-/

deriving instance DecidableEq for Except

namespace VeJoias

/-- The product entity `Joia` (`entities.py`), restricted to the fields the
checkout / cart core reads: identity, display name, current unit price,
live stock, and the active flag used by the session cart manager. -/
structure Joia where
  id : String
  nome : String
  preco : Rat
  estoque : Int
  ativa : Bool
deriving Repr, DecidableEq

/-- A cart line (`entities.ItemCarrinho`): product reference, quantity and
the unit price stored when the line was created.  The checkout use case
never reads `preco_unitario`; it re-reads the catalog price instead. -/
structure ItemCarrinho where
  joia_id : String
  quantidade : Int
  preco_unitario : Rat
deriving Repr, DecidableEq

/-- The cart entity (`entities.Carrinho`), reduced to its item list. -/
structure Carrinho where
  itens : List ItemCarrinho
deriving Repr, DecidableEq

/-- An order line snapshot (`entities.ItemPedido`): immutable copy of the
product data taken at checkout time, with the subtotal stored at
construction (`__post_init__`). -/
structure ItemPedido where
  joia_id : String
  nome_joia : String
  preco_unitario : Rat
  quantidade : Int
  subtotal : Rat
deriving Repr, DecidableEq

/-- Constructor of `ItemPedido` mirroring `__post_init__`: the subtotal is
computed once, as unit price times quantity. -/
def mkItemPedido (joia_id nome_joia : String) (preco : Rat) (qtd : Int) :
    ItemPedido :=
  { joia_id := joia_id, nome_joia := nome_joia, preco_unitario := preco,
    quantidade := qtd, subtotal := preco * (qtd : Rat) }

/-- The payment-transaction entity (`entities.TransacaoPagamento`):
external reference, canonical provider status string, amount. -/
structure TransacaoPagamento where
  referencia_externa : String
  status_pagamento : String
  valor : Rat
deriving Repr, DecidableEq

/-- The order entity (`entities.Pedido`), restricted to the fields the use
cases read or write. -/
structure Pedido where
  id : String
  usuario_id : String
  status : String
  total_pedido : Rat
  tipo_pagamento : String
  telefone_whatsapp : String
  itens : List ItemPedido
  transacao_id : Option String
deriving Repr, DecidableEq

/-- Errors the payment gateway call can raise.  `pagamentoFalhou` is
`PagamentoFalhouError`, the only exception type `CriarPedido.execute`
catches; `outro` stands for any other exception raised by the gateway. -/
inductive GatewayErr where
  | pagamentoFalhou (msg : String)
  | outro (msg : String)
deriving Repr, DecidableEq

/-- Errors surfaced by `CriarPedido.execute`, one constructor per exception
class it can raise (`CarrinhoVazioError`, `ItemNaoEncontradoError`,
`EstoqueInsuficienteError`, `PagamentoFalhouError`) plus `outro` for an
exception type the method itself never names (it re-raises a bare
`Exception` on persistence failure, and lets unknown gateway exceptions
propagate). -/
inductive CheckoutErr where
  | carrinhoVazio
  | itemNaoEncontrado (joia_id : String)
  | estoqueInsuficiente (joia_id : String) (estoque_atual quantidade_solicitada : Int)
  | pagamentoFalhou (msg : String)
  | outro (msg : String)
deriving Repr, DecidableEq

/-- Whether a surfaced checkout error is the normalized payment failure. -/
def CheckoutErr.ehPagamentoFalhou : CheckoutErr → Bool
  | .pagamentoFalhou _ => true
  | _ => false

/-- The explicit system state: the three repositories plus the logs of
successfully dispatched notifications (order ids), and the log of status
writes performed by the reconciler (`pedido_repo.salvar` calls there). -/
structure Loja where
  joias : List Joia
  carrinho : Carrinho
  pedidos : List Pedido
  confirmacaoEmail : List String
  confirmacaoWhats : List String
  aprovacaoEmail : List String
  aprovacaoWhats : List String
  reconSaves : List (String × String)
deriving Repr, DecidableEq

/-- `repo_joias.buscar_por_id`: first catalog entry with the given id. -/
def buscarJoia (joias : List Joia) (joia_id : String) : Option Joia :=
  joias.find? (fun j => j.id == joia_id)

/-- Step 1 of `CriarPedido.execute`: walk the cart items in order, look
each product up, check live stock against the requested quantity, and
build the snapshot list together with the running total.  The first
failing item aborts the whole walk with its error, exactly as the Python
`for` loop raises out of the method. -/
def snapshotItens (joias : List Joia) :
    List ItemCarrinho → Except CheckoutErr (List ItemPedido × Rat)
  | [] => .ok ([], 0)
  | item :: resto =>
    match buscarJoia joias item.joia_id with
    | none => .error (.itemNaoEncontrado item.joia_id)
    | some joia =>
      if joia.estoque < item.quantidade then
        .error (.estoqueInsuficiente joia.id joia.estoque item.quantidade)
      else
        match snapshotItens joias resto with
        | .error e => .error e
        | .ok (itens, total) =>
          let snap := mkItemPedido joia.id joia.nome joia.preco item.quantidade
          .ok (snap :: itens, snap.subtotal + total)

/-- Python `str.upper()` for the ASCII identifiers the code upper-cases
(payment-method and status names), written so that it evaluates by kernel
reduction. -/
def upper (s : String) : String := ⟨s.data.map Char.toUpper⟩

/-- The draft order built in step 2 of `CriarPedido.execute`, before the
gateway call: status `AGUARDANDO_PAGAMENTO`, no transaction reference. -/
def pedidoInicial (pedido_id usuario_id tipo_pagamento numero_telefone : String)
    (itens : List ItemPedido) (total : Rat) : Pedido :=
  { id := pedido_id, usuario_id := usuario_id, status := "AGUARDANDO_PAGAMENTO",
    total_pedido := total, tipo_pagamento := upper tipo_pagamento,
    telefone_whatsapp := numero_telefone, itens := itens, transacao_id := none }

/-- `repo_joias.atualizar_estoque` (repository implementation): decrement
the stock of one product, provided the product exists and its stock covers
the quantity; otherwise raise. -/
def atualizarEstoque (joias : List Joia) (joia_id : String) (q : Int) :
    Except String (List Joia) :=
  match buscarJoia joias joia_id with
  | none => .error ("Joia ID " ++ joia_id ++ " nao encontrada para atualizacao de estoque.")
  | some joia =>
    if joia.estoque ≥ q then
      .ok (joias.map (fun x => if x.id == joia_id then { x with estoque := x.estoque - q } else x))
    else
      .error ("Estoque insuficiente para a Joia ID " ++ joia_id ++ ".")

/-- The stock-decrement loop of step 5 of `CriarPedido.execute`.  A failure
keeps the decrements already applied (the Python loop has mutated the
store before the exception), so the partially updated catalog is returned
alongside the error message. -/
def atualizarEstoqueLista (joias : List Joia) :
    List ItemPedido → List Joia × Option String
  | [] => (joias, none)
  | item :: resto =>
    match atualizarEstoque joias item.joia_id item.quantidade with
    | .error e => (joias, some e)
    | .ok joias2 => atualizarEstoqueLista joias2 resto

/-- Step 6 of `CriarPedido.execute`: both confirmation channels are called
inside one `try` block, e-mail first.  A channel call succeeds exactly
when its flag is true; if the e-mail call raises, control jumps to the
handler and the WhatsApp call is never made. -/
def notificarConfirmacao (emailOk whatsOk : Bool) (pedido_id : String) (s : Loja) : Loja :=
  if emailOk then
    let s2 := { s with confirmacaoEmail := pedido_id :: s.confirmacaoEmail }
    if whatsOk then { s2 with confirmacaoWhats := pedido_id :: s2.confirmacaoWhats } else s2
  else s

/-- `CriarPedido.execute` up to and including step 5 (persist the order,
decrement the stock, clear the cart), without the notification step.
Mirrors `vejoias/core/use_cases.py`:
empty-cart guard; snapshot walk; gateway call, re-raising
`PagamentoFalhouError` with the `Pagamento rejeitado:` prefix and letting
any other gateway exception propagate; the returned transaction status is
assigned verbatim as the order status; the order is saved, the stock loop
runs, and only then is the cart cleared.  A stock-loop failure is
re-raised as the method's bare `Exception`. -/
def criarPedidoCore (gw : Pedido → Except GatewayErr TransacaoPagamento)
    (pedido_id usuario_id tipo_pagamento numero_telefone : String)
    (s : Loja) : Except CheckoutErr Pedido × Loja :=
  if s.carrinho.itens.isEmpty then
    (.error .carrinhoVazio, s)
  else
    match snapshotItens s.joias s.carrinho.itens with
    | .error e => (.error e, s)
    | .ok (itens_pedido, total_calculado) =>
      let draft := pedidoInicial pedido_id usuario_id tipo_pagamento
        numero_telefone itens_pedido total_calculado
      match gw draft with
      | .error (.pagamentoFalhou msg) =>
        (.error (.pagamentoFalhou ("Pagamento rejeitado: " ++ msg)), s)
      | .error (.outro msg) => (.error (.outro msg), s)
      | .ok transacao =>
        let pedido_final : Pedido :=
          { draft with status := transacao.status_pagamento,
                       transacao_id := some transacao.referencia_externa }
        let s1 : Loja := { s with pedidos := pedido_final :: s.pedidos }
        match atualizarEstoqueLista s1.joias pedido_final.itens with
        | (joias2, some e) =>
          (.error (.outro ("Falha na persistencia ou reducao de estoque: " ++ e)),
           { s1 with joias := joias2 })
        | (joias2, none) =>
          (.ok pedido_final, { s1 with joias := joias2, carrinho := ⟨[]⟩ })

/-- `CriarPedido.execute` in full: the core workflow followed, on success
only, by the notification block of step 6. -/
def criarPedido (gw : Pedido → Except GatewayErr TransacaoPagamento)
    (emailOk whatsOk : Bool)
    (pedido_id usuario_id tipo_pagamento numero_telefone : String)
    (s : Loja) : Except CheckoutErr Pedido × Loja :=
  match criarPedidoCore gw pedido_id usuario_id tipo_pagamento numero_telefone s with
  | (.ok p, s1) => (.ok p, notificarConfirmacao emailOk whatsOk pedido_id s1)
  | r => r

/-- The reconciler's fixed provider-vocabulary table
(`AtualizarStatusPedidoPorTransacao._STATUS_MAP`), as an association
list, exactly the Python dict. -/
def STATUS_MAP : List (String × String) :=
  [("APROVADO", "PAGO"), ("PENDENTE", "PENDENTE"),
   ("REJEITADO", "CANCELADO"), ("ESTORNADO", "CANCELADO")]

/-- `pedido_repo.buscar_por_transacao_id`: first order whose stored
transaction reference is the given one. -/
def buscarPorTransacaoId (pedidos : List Pedido) (transacao_id : String) :
    Option Pedido :=
  pedidos.find? (fun p => p.transacao_id == some transacao_id)

/-- `pedido_repo.buscar_por_id`. -/
def buscarPedidoPorId (pedidos : List Pedido) (pedido_id : String) : Option Pedido :=
  pedidos.find? (fun p => p.id == pedido_id)

/-- `pedido_repo.salvar` for an already-persisted order: overwrite the
stored row(s) carrying the order's id. -/
def salvarPedido (pedidos : List Pedido) (p : Pedido) : List Pedido :=
  pedidos.map (fun q => if q.id == p.id then p else q)

/-- Step 5 of `AtualizarStatusPedidoPorTransacao.execute`: the two
payment-approved channels, each inside its own `try` block (WhatsApp
first, then e-mail), so each succeeds independently iff its flag is
true. -/
def notificarAprovacao (whatsOk emailOk : Bool) (pedido_id : String) (s : Loja) : Loja :=
  let s1 := if whatsOk then { s with aprovacaoWhats := pedido_id :: s.aprovacaoWhats } else s
  if emailOk then { s1 with aprovacaoEmail := pedido_id :: s1.aprovacaoEmail } else s1

/-- `AtualizarStatusPedidoPorTransacao.execute` (the reconciler).
Mirrors `vejoias/core/use_cases.py`: on a gateway
verification failure, log and return; if no order carries the transaction
reference, log and return; map the verified provider status through
`STATUS_MAP` with the order's current status as the dict-lookup default;
write the new status only when it differs; after a write to `PAGO`, fire
the two approval notifications, each failure-isolated.  Every
`pedido_repo.salvar` call is recorded in `reconSaves`. -/
def atualizarStatusPorTransacao
    (verificar : String → Except String TransacaoPagamento)
    (whatsOk emailOk : Bool) (transacao_id : String) (s : Loja) : Loja :=
  match verificar transacao_id with
  | .error _ => s
  | .ok transacao =>
    match buscarPorTransacaoId s.pedidos transacao_id with
    | none => s
    | some pedido =>
      let novo_status := (STATUS_MAP.lookup transacao.status_pagamento).getD pedido.status
      if pedido.status == novo_status then s
      else
        let pedido2 := { pedido with status := novo_status }
        let s1 := { s with pedidos := salvarPedido s.pedidos pedido2,
                           reconSaves := (pedido.id, novo_status) :: s.reconSaves }
        if novo_status == "PAGO" then
          notificarAprovacao whatsOk emailOk pedido.id s1
        else s1

/-- `AtualizarStatusManual.STATUS_VALIDOS`. -/
def STATUS_VALIDOS : List String :=
  ["PAGO", "PENDENTE", "PROCESSANDO", "ENVIADO", "ENTREGUE", "CANCELADO"]

/-- Errors of `AtualizarStatusManual.execute`. -/
inductive ManualErr where
  | statusInvalido (status : String)
  | pedidoNaoEncontrado (pedido_id : String)
deriving Repr, DecidableEq

/-- `AtualizarStatusManual.execute`: upper-case the requested status,
reject it unless it is in `STATUS_VALIDOS`, look the order up, return it
unchanged when the status is already the requested one, otherwise write
the new status.  No transition-graph validation is performed. -/
def atualizarStatusManual (pedidos : List Pedido) (pedido_id novo_status : String) :
    Except ManualErr (Pedido × List Pedido) :=
  let novo_status_upper := upper novo_status
  if STATUS_VALIDOS.contains novo_status_upper then
    match buscarPedidoPorId pedidos pedido_id with
    | none => .error (.pedidoNaoEncontrado pedido_id)
    | some pedido =>
      if pedido.status == novo_status_upper then .ok (pedido, pedidos)
      else
        let pedido2 := { pedido with status := novo_status_upper }
        .ok (pedido2, salvarPedido pedidos pedido2)
  else .error (.statusInvalido novo_status)

/-- Errors of the two cart use cases. -/
inductive CarrinhoErr where
  | itemNaoEncontrado (msg : String)
  | estoqueInsuficiente (joia_id : String) (estoque_atual quantidade_solicitada : Int)
  | carrinhoVazio (msg : String)
deriving Repr, DecidableEq

/-- `AdicionarItemAoCarrinho.execute`: look the product up, merge the
requested quantity with any existing line for the same product, check the
merged quantity against the live stock, and update or append the line.
No positivity check is performed on the requested quantity.  (The
`ItemCarrinho` entity also carries a unit price, which the Django session
manager fills with the current catalog price on creation; the checkout
never reads it.) -/
def adicionarItemAoCarrinho (joias : List Joia) (carrinho : Carrinho)
    (joia_id : String) (quantidade : Int) : Except CarrinhoErr Carrinho :=
  match buscarJoia joias joia_id with
  | none => .error (.itemNaoEncontrado ("Joia ID " ++ joia_id ++ " nao encontrada."))
  | some joia =>
    let item_existente := carrinho.itens.find? (fun item => item.joia_id == joia_id)
    let quantidade_total :=
      match item_existente with
      | some item => quantidade + item.quantidade
      | none => quantidade
    if joia.estoque < quantidade_total then
      .error (.estoqueInsuficiente joia_id joia.estoque quantidade_total)
    else
      match item_existente with
      | some _ =>
        .ok ⟨carrinho.itens.map (fun item =>
          if item.joia_id == joia_id then { item with quantidade := quantidade_total }
          else item)⟩
      | none =>
        .ok ⟨carrinho.itens ++ [⟨joia.id, quantidade, joia.preco⟩]⟩

/-- `RemoverItemDoCarrinho.execute`: empty-cart guard, then remove the
first cart line for the product, or fail if there is none. -/
def removerItemDoCarrinho (carrinho : Carrinho) (joia_id : String) :
    Except CarrinhoErr Carrinho :=
  if carrinho.itens.isEmpty then
    .error (.carrinhoVazio "O carrinho esta vazio.")
  else
    match carrinho.itens.find? (fun item => item.joia_id == joia_id) with
    | none => .error (.itemNaoEncontrado "Item nao encontrado no carrinho.")
    | some item => .ok ⟨carrinho.itens.erase item⟩

/-- `CartManager.update_quantity` (`presentation/cart_manager.py`): ignore
the request if the product is unknown or inactive; remove the line
entirely when the requested quantity is ≤ 0; otherwise cap the quantity
at the live stock and set it on the existing line. -/
def updateQuantity (joias : List Joia) (carrinho : Carrinho)
    (joia_id : String) (quantidade : Int) : Carrinho :=
  match buscarJoia joias joia_id with
  | none => carrinho
  | some joia =>
    if !joia.ativa then carrinho
    else if quantidade ≤ 0 then
      ⟨carrinho.itens.filter (fun item => !(item.joia_id == joia_id))⟩
    else
      let quantidade_final := min quantidade joia.estoque
      ⟨carrinho.itens.map (fun item =>
        if item.joia_id == joia_id then { item with quantidade := quantidade_final }
        else item)⟩

/-! ### General lemmas about the embedded operations -/

/-- A successful catalog lookup returns a product carrying the id that was
looked up. -/
theorem buscarJoia_id {joias : List Joia} {joia_id : String} {j : Joia}
    (h : buscarJoia joias joia_id = some j) : j.id = joia_id := by
  have hp := List.find?_some h
  exact eq_of_beq hp

/-- A found order carries the transaction reference it was found by. -/
theorem buscarPorTransacaoId_ref {pedidos : List Pedido} {tid : String} {p : Pedido}
    (h : buscarPorTransacaoId pedidos tid = some p) : p.transacao_id = some tid := by
  have hp := List.find?_some h
  exact eq_of_beq hp

/-- The notification step of the reconciler touches only the two approval
logs. -/
theorem notificarAprovacao_preserva (w e : Bool) (pid : String) (s : Loja) :
    (notificarAprovacao w e pid s).pedidos = s.pedidos
    ∧ (notificarAprovacao w e pid s).reconSaves = s.reconSaves
    ∧ (notificarAprovacao w e pid s).joias = s.joias
    ∧ (notificarAprovacao w e pid s).carrinho = s.carrinho := by
  unfold notificarAprovacao
  cases w <;> cases e <;> simp

/-- Each approval channel grows by at most one entry per reconciler
notification step. -/
theorem notificarAprovacao_bound (w e : Bool) (pid : String) (s : Loja) :
    (notificarAprovacao w e pid s).aprovacaoWhats.length ≤ s.aprovacaoWhats.length + 1
    ∧ (notificarAprovacao w e pid s).aprovacaoEmail.length ≤ s.aprovacaoEmail.length + 1 := by
  unfold notificarAprovacao
  cases w <;> cases e <;> simp

/-- The checkout result (the returned order or error) does not depend on
the notification flags: notifications happen after the return value is
fixed. -/
theorem criarPedido_fst (gw : Pedido → Except GatewayErr TransacaoPagamento)
    (emailOk whatsOk : Bool) (pid uid tp tel : String) (s : Loja) :
    (criarPedido gw emailOk whatsOk pid uid tp tel s).fst
      = (criarPedidoCore gw pid uid tp tel s).fst := by
  unfold criarPedido
  rcases h : criarPedidoCore gw pid uid tp tel s with ⟨r, s1⟩
  cases r <;> simp

/-- On a checkout error the full workflow returns exactly the core
result: the notification step runs only on success. -/
theorem criarPedido_error (gw : Pedido → Except GatewayErr TransacaoPagamento)
    (emailOk whatsOk : Bool) (pid uid tp tel : String) (s : Loja)
    (e : CheckoutErr) (s1 : Loja)
    (h : criarPedidoCore gw pid uid tp tel s = (.error e, s1)) :
    criarPedido gw emailOk whatsOk pid uid tp tel s = (.error e, s1) := by
  unfold criarPedido
  rw [h]

/-! ### Claim C1 -/

/-- Gateway oracle answering an instantly approved payment (the canonical
provider status `APROVADO`, as `MercadoPagoGateway` returns for an
approved card payment). -/
def gwAprovado : Pedido → Except GatewayErr TransacaoPagamento :=
  fun _ => .ok ⟨"TX-1", "APROVADO", 100⟩

/-- A store with one product in stock and a one-line cart for it. -/
def lojaC1 : Loja :=
  ⟨[⟨"J1", "Anel de Ouro", 100, 5, true⟩], ⟨[⟨"J1", 1, 100⟩]⟩, [], [], [], [], [], []⟩

/-- Claim C1: the claim states that on gateway success the persisted
order's initial status is the gateway status mapped through the
`PaymentStatusMapper` table and hence one of `PAGO`, `PENDENTE`,
`CANCELADO`.  The code instead assigns the transaction's provider-level
status verbatim (`pedido_inicial.status = transacao.status_pagamento`):
after an approved payment the persisted status is `APROVADO`, a value
outside the order-status vocabulary used by the rest of the code
(`STATUS_VALIDOS`, the model's status choices, the reconciler's map
targets) even though the shared table maps `APROVADO` to `PAGO`. -/
theorem checkout_persists_raw_gateway_status :
    (criarPedido gwAprovado true true "P1" "U1" "cartao" "5511" lojaC1).snd.pedidos.map
        Pedido.status = ["APROVADO"]
    ∧ "APROVADO" ∉ ["PAGO", "PENDENTE", "CANCELADO"]
    ∧ STATUS_MAP.lookup "APROVADO" = some "PAGO"
    ∧ "APROVADO" ∉ STATUS_VALIDOS := by
  refine ⟨by decide, by decide, by decide, by decide⟩

/-! ### Claim C7 -/

/-- Claim C7: the reconciler is a strict no-op — same state, no
notification — when the gateway status verification fails, and likewise
when no order carries the transaction reference. -/
theorem reconcile_precondition_noop
    (verificar : String → Except String TransacaoPagamento)
    (w e : Bool) (tid : String) (s : Loja) :
    (∀ msg, verificar tid = .error msg → atualizarStatusPorTransacao verificar w e tid s = s)
    ∧ (∀ t, verificar tid = .ok t → buscarPorTransacaoId s.pedidos tid = none →
        atualizarStatusPorTransacao verificar w e tid s = s) := by
  constructor
  · intro msg hmsg
    unfold atualizarStatusPorTransacao
    rw [hmsg]
  · intro t ht hnone
    unfold atualizarStatusPorTransacao
    rw [ht, hnone]

/-- Witness for C7 at a concrete input: an unreachable gateway, and a
reachable gateway with an unknown transaction reference. -/
theorem reconcile_precondition_noop_witness :
    atualizarStatusPorTransacao (fun _ => .error "timeout") true true "TX-0" lojaC1 = lojaC1
    ∧ atualizarStatusPorTransacao (fun _ => .ok ⟨"TX-0", "APROVADO", 1⟩) true true "TX-0"
        lojaC1 = lojaC1 := by
  constructor
  · exact (reconcile_precondition_noop (fun _ => .error "timeout") true true "TX-0"
      lojaC1).1 "timeout" rfl
  · exact (reconcile_precondition_noop (fun _ => .ok ⟨"TX-0", "APROVADO", 1⟩) true true "TX-0"
      lojaC1).2 ⟨"TX-0", "APROVADO", 1⟩ rfl (by decide)

/-! ### Claim C10 -/

/-- Claim C10: a verified provider status outside the mapped vocabulary
(`APROVADO`, `PENDENTE`, `REJEITADO`, `ESTORNADO`) makes the dict lookup
fall back to the order's current status, so the reconciler finishes as a
strict no-op — no status write, no notification, no error. -/
theorem reconcile_unmapped_status_noop
    (verificar : String → Except String TransacaoPagamento)
    (w e : Bool) (tid : String) (s : Loja) (t : TransacaoPagamento)
    (hver : verificar tid = .ok t)
    (hst : t.status_pagamento ∉ (["APROVADO", "PENDENTE", "REJEITADO", "ESTORNADO"] : List String)) :
    atualizarStatusPorTransacao verificar w e tid s = s := by
  simp only [List.mem_cons, List.not_mem_nil, or_false, not_or] at hst
  have h1 : (t.status_pagamento == "APROVADO") = false := beq_eq_false_iff_ne.mpr hst.1
  have h2 : (t.status_pagamento == "PENDENTE") = false := beq_eq_false_iff_ne.mpr hst.2.1
  have h3 : (t.status_pagamento == "REJEITADO") = false := beq_eq_false_iff_ne.mpr hst.2.2.1
  have h4 : (t.status_pagamento == "ESTORNADO") = false := beq_eq_false_iff_ne.mpr hst.2.2.2
  have hlook : STATUS_MAP.lookup t.status_pagamento = none := by
    simp [STATUS_MAP, List.lookup, h1, h2, h3, h4]
  unfold atualizarStatusPorTransacao
  rw [hver]
  cases hfind : buscarPorTransacaoId s.pedidos tid with
  | none => rfl
  | some p => simp [hlook]

/-- Witness for C10: the provider vocabulary value `CANCELADO` (returned
by the gateway adapter for the provider status `cancelled`) is not in the
reconciler's table; reconciliation leaves the store untouched. -/
theorem reconcile_unmapped_status_noop_witness :
    atualizarStatusPorTransacao (fun _ => .ok ⟨"TX-0", "CANCELADO", 1⟩) true true "TX-0"
      lojaC1 = lojaC1 :=
  reconcile_unmapped_status_noop _ true true "TX-0" lojaC1 ⟨"TX-0", "CANCELADO", 1⟩ rfl
    (by decide)

/-! ### The snapshot walk -/

/-- A successful snapshot walk returns the running total as the sum of the
stored subtotals, every stored subtotal as unit price times quantity, and
one snapshot per cart line, in order, carrying the cart line's product id
and quantity and the catalog's current price and name for that product. -/
theorem snapshotItens_ok (joias : List Joia) (itens : List ItemCarrinho) :
    ∀ res total, snapshotItens joias itens = .ok (res, total) →
      total = (res.map ItemPedido.subtotal).sum
      ∧ (∀ i ∈ res, i.subtotal = i.preco_unitario * (i.quantidade : Rat))
      ∧ List.Forall₂ (fun (ci : ItemCarrinho) (i : ItemPedido) =>
          i.joia_id = ci.joia_id ∧ i.quantidade = ci.quantidade ∧
          ∃ j, buscarJoia joias ci.joia_id = some j ∧
            i.preco_unitario = j.preco ∧ i.nome_joia = j.nome) itens res := by
  induction itens with
  | nil =>
    intro res total h
    unfold snapshotItens at h
    simp only [Except.ok.injEq, Prod.mk.injEq] at h
    obtain ⟨h1, h2⟩ := h
    subst h1; subst h2
    simp
  | cons item resto ih =>
    intro res total h
    unfold snapshotItens at h
    cases hb : buscarJoia joias item.joia_id with
    | none => rw [hb] at h; simp at h
    | some joia =>
      rw [hb] at h
      dsimp only at h
      by_cases hst : joia.estoque < item.quantidade
      · simp [hst] at h
      · rw [if_neg hst] at h
        cases hs : snapshotItens joias resto with
        | error e => rw [hs] at h; simp at h
        | ok pr =>
          obtain ⟨itens2, total2⟩ := pr
          rw [hs] at h
          simp only [Except.ok.injEq, Prod.mk.injEq] at h
          obtain ⟨h1, h2⟩ := h
          subst h1; subst h2
          obtain ⟨iht, ihsub, ihf⟩ := ih itens2 total2 hs
          refine ⟨?_, ?_, ?_⟩
          · simp [iht, mkItemPedido]
          · intro i hi
            rcases List.mem_cons.mp hi with rfl | hi2
            · simp [mkItemPedido]
            · exact ihsub i hi2
          · refine List.Forall₂.cons ?_ ihf
            exact ⟨buscarJoia_id hb, rfl, joia, hb, rfl, rfl⟩

/-- If every cart line's product exists in the catalog and some line asks
for more than the live stock, the snapshot walk fails with the
insufficient-stock error of (the first) such line. -/
theorem snapshotItens_insuficiente (joias : List Joia) (itens : List ItemCarrinho)
    (hall : ∀ item ∈ itens, ∃ j, buscarJoia joias item.joia_id = some j)
    (hbad : ∃ item ∈ itens, ∃ j, buscarJoia joias item.joia_id = some j
      ∧ j.estoque < item.quantidade) :
    ∃ item ∈ itens, ∃ j, buscarJoia joias item.joia_id = some j ∧ j.id = item.joia_id
      ∧ j.estoque < item.quantidade
      ∧ snapshotItens joias itens
          = .error (.estoqueInsuficiente j.id j.estoque item.quantidade) := by
  induction itens with
  | nil => simp at hbad
  | cons item resto ih =>
    obtain ⟨jh, hjh⟩ := hall item (by simp)
    by_cases hst : jh.estoque < item.quantidade
    · refine ⟨item, by simp, jh, hjh, buscarJoia_id hjh, hst, ?_⟩
      unfold snapshotItens
      rw [hjh]
      simp [hst]
    · have hbad2 : ∃ i ∈ resto, ∃ j, buscarJoia joias i.joia_id = some j
          ∧ j.estoque < i.quantidade := by
        rcases hbad with ⟨i, hi, j, hj, hlt⟩
        rcases List.mem_cons.mp hi with rfl | hi2
        · rw [hjh] at hj
          injection hj with hj
          subst hj
          exact absurd hlt hst
        · exact ⟨i, hi2, j, hj, hlt⟩
      have hall2 : ∀ i ∈ resto, ∃ j, buscarJoia joias i.joia_id = some j :=
        fun i hi => hall i (List.mem_cons_of_mem _ hi)
      obtain ⟨i, hi, j, hj, hid, hlt, herr⟩ := ih hall2 hbad2
      refine ⟨i, List.mem_cons_of_mem _ hi, j, hj, hid, hlt, ?_⟩
      unfold snapshotItens
      rw [hjh]
      dsimp only
      rw [if_neg hst, herr]

/-! ### Claim C2 -/

/-- Claim C2: when every cart line's product is in the catalog and some
line's live stock is below its requested quantity, the checkout fails with
`EstoqueInsuficienteError` carrying the id, live stock and requested
quantity of an offending product, and the state — orders, stock, cart,
notifications — is returned exactly as it was. -/
theorem checkout_insufficient_stock_aborts
    (gw : Pedido → Except GatewayErr TransacaoPagamento)
    (emailOk whatsOk : Bool) (pid uid tp tel : String) (s : Loja)
    (hall : ∀ item ∈ s.carrinho.itens, ∃ j, buscarJoia s.joias item.joia_id = some j)
    (hbad : ∃ item ∈ s.carrinho.itens, ∃ j, buscarJoia s.joias item.joia_id = some j
      ∧ j.estoque < item.quantidade) :
    ∃ item ∈ s.carrinho.itens, ∃ j, buscarJoia s.joias item.joia_id = some j
      ∧ j.id = item.joia_id ∧ j.estoque < item.quantidade
      ∧ criarPedido gw emailOk whatsOk pid uid tp tel s
          = (.error (.estoqueInsuficiente j.id j.estoque item.quantidade), s) := by
  obtain ⟨item, hi, j, hj, hid, hlt, herr⟩ :=
    snapshotItens_insuficiente s.joias s.carrinho.itens hall hbad
  refine ⟨item, hi, j, hj, hid, hlt, ?_⟩
  have hne : s.carrinho.itens.isEmpty = false := by
    cases hcc : s.carrinho.itens with
    | nil => rw [hcc] at hi; cases hi
    | cons a l => rfl
  apply criarPedido_error
  unfold criarPedidoCore
  simp [hne, herr]

/-- A store whose only product has stock 2 while the cart asks for 5. -/
def lojaC2 : Loja :=
  ⟨[⟨"J1", "Anel", 100, 2, true⟩], ⟨[⟨"J1", 5, 100⟩]⟩, [], [], [], [], [], []⟩

/-- Witness for C2 at the concrete store `lojaC2`. -/
theorem checkout_insufficient_stock_aborts_witness :
    ((∀ item ∈ lojaC2.carrinho.itens, ∃ j, buscarJoia lojaC2.joias item.joia_id = some j)
      ∧ ∃ item ∈ lojaC2.carrinho.itens, ∃ j, buscarJoia lojaC2.joias item.joia_id = some j
          ∧ j.estoque < item.quantidade)
    ∧ ∃ item ∈ lojaC2.carrinho.itens, ∃ j, buscarJoia lojaC2.joias item.joia_id = some j
        ∧ j.id = item.joia_id ∧ j.estoque < item.quantidade
        ∧ criarPedido gwAprovado true true "P1" "U1" "pix" "5511" lojaC2
            = (.error (.estoqueInsuficiente j.id j.estoque item.quantidade), lojaC2) := by
  have hall : ∀ item ∈ lojaC2.carrinho.itens,
      ∃ j, buscarJoia lojaC2.joias item.joia_id = some j := by
    intro item hi
    have hitem : item = (⟨"J1", 5, 100⟩ : ItemCarrinho) := by simpa [lojaC2] using hi
    subst hitem
    exact ⟨⟨"J1", "Anel", 100, 2, true⟩, by decide⟩
  have hbad : ∃ item ∈ lojaC2.carrinho.itens, ∃ j, buscarJoia lojaC2.joias item.joia_id = some j
      ∧ j.estoque < item.quantidade :=
    ⟨⟨"J1", 5, 100⟩, by decide, ⟨"J1", "Anel", 100, 2, true⟩, by decide, by decide⟩
  exact ⟨⟨hall, hbad⟩,
    checkout_insufficient_stock_aborts gwAprovado true true "P1" "U1" "pix" "5511" lojaC2
      hall hbad⟩

/-! ### Claim C6 -/

/-- Inversion of a successful checkout core run: it went through a
successful snapshot walk and a successful gateway call, and the returned
order is the draft order with the transaction's status and reference
assigned. -/
theorem criarPedidoCore_ok_inv
    {gw : Pedido → Except GatewayErr TransacaoPagamento}
    {pid uid tp tel : String} {s : Loja} {p : Pedido} {s1 : Loja}
    (h : criarPedidoCore gw pid uid tp tel s = (.ok p, s1)) :
    ∃ itens total transacao,
      snapshotItens s.joias s.carrinho.itens = .ok (itens, total)
      ∧ gw (pedidoInicial pid uid tp tel itens total) = .ok transacao
      ∧ p = { pedidoInicial pid uid tp tel itens total with
              status := transacao.status_pagamento,
              transacao_id := some transacao.referencia_externa } := by
  unfold criarPedidoCore at h
  by_cases hcc : s.carrinho.itens.isEmpty
  · simp [hcc] at h
  · rw [if_neg (by simpa using hcc)] at h
    cases hs : snapshotItens s.joias s.carrinho.itens with
    | error e => rw [hs] at h; simp at h
    | ok pr =>
      obtain ⟨itens, total⟩ := pr
      rw [hs] at h
      dsimp only at h
      cases hg : gw (pedidoInicial pid uid tp tel itens total) with
      | error ge =>
        rw [hg] at h
        cases ge <;> simp at h
      | ok transacao =>
        rw [hg] at h
        dsimp only at h
        refine ⟨itens, total, transacao, rfl, hg, ?_⟩
        cases hu : atualizarEstoqueLista s.joias
            ({ pedidoInicial pid uid tp tel itens total with
               status := transacao.status_pagamento,
               transacao_id := some transacao.referencia_externa } : Pedido).itens with
        | mk joias2 r =>
          rw [hu] at h
          cases r with
          | none =>
            simp only [Prod.mk.injEq, Except.ok.injEq] at h
            exact h.1.symm
          | some e2 => simp at h

/-- Claim C6: a successfully returned order's total is the exact `Rat` sum
of unit price times quantity over its line snapshots; each snapshot's
stored subtotal is its unit price times its quantity, computed once at
construction; and the snapshots correspond one-to-one, in order, to the
cart lines, each carrying the catalog's price at checkout time for the
line's product — the price stored in the cart line itself is never
consulted. -/
theorem checkout_total_is_exact_snapshot_sum
    (gw : Pedido → Except GatewayErr TransacaoPagamento)
    (emailOk whatsOk : Bool) (pid uid tp tel : String) (s : Loja) (p : Pedido)
    (h : (criarPedido gw emailOk whatsOk pid uid tp tel s).fst = .ok p) :
    p.total_pedido = (p.itens.map (fun i => i.preco_unitario * (i.quantidade : Rat))).sum
    ∧ (∀ i ∈ p.itens, i.subtotal = i.preco_unitario * (i.quantidade : Rat))
    ∧ List.Forall₂ (fun (ci : ItemCarrinho) (i : ItemPedido) =>
        i.joia_id = ci.joia_id ∧ i.quantidade = ci.quantidade ∧
        ∃ j, buscarJoia s.joias ci.joia_id = some j ∧
          i.preco_unitario = j.preco ∧ i.nome_joia = j.nome)
        s.carrinho.itens p.itens := by
  rw [criarPedido_fst] at h
  rcases hc : criarPedidoCore gw pid uid tp tel s with ⟨r, s1⟩
  rw [hc] at h
  simp only at h
  subst h
  obtain ⟨itens, total, transacao, hs, hg, hp⟩ := criarPedidoCore_ok_inv hc
  obtain ⟨ht, hsub, hf⟩ := snapshotItens_ok s.joias s.carrinho.itens itens total hs
  have hpt : p.total_pedido = total := by rw [hp]; rfl
  have hpi : p.itens = itens := by rw [hp]; rfl
  refine ⟨?_, ?_, ?_⟩
  · rw [hpt, hpi, ht]
    congr 1
    exact List.map_congr_left hsub
  · intro i hi
    exact hsub i (hpi ▸ hi)
  · rw [hpi]
    exact hf

/-- Gateway oracle for a delayed-settlement payment: the provider answers
`PENDENTE` with reference `TX-2`. -/
def gwPendente : Pedido → Except GatewayErr TransacaoPagamento :=
  fun _ => .ok ⟨"TX-2", "PENDENTE", 500⟩

/-- A two-product store whose cart lines carry stale unit prices (30 and
999) different from the current catalog prices (100 and 200). -/
def lojaC6 : Loja :=
  ⟨[⟨"J1", "Anel", 100, 5, true⟩, ⟨"J2", "Colar", 200, 10, true⟩],
   ⟨[⟨"J1", 1, 30⟩, ⟨"J2", 2, 999⟩]⟩, [], [], [], [], [], []⟩

/-- The order the checkout on `lojaC6` returns: priced from the catalog
(100 · 1 + 200 · 2 = 500), not from the stale cart prices. -/
def pedidoC6 : Pedido :=
  { id := "P1", usuario_id := "U1", status := "PENDENTE", total_pedido := 500,
    tipo_pagamento := "PIX", telefone_whatsapp := "5511",
    itens := [⟨"J1", "Anel", 100, 1, 100⟩, ⟨"J2", "Colar", 200, 2, 400⟩],
    transacao_id := some "TX-2" }

/-- Witness for C6 at the concrete store `lojaC6`. -/
theorem checkout_total_witness :
    (criarPedido gwPendente true true "P1" "U1" "pix" "5511" lojaC6).fst = .ok pedidoC6
    ∧ (pedidoC6.total_pedido
        = (pedidoC6.itens.map (fun i => i.preco_unitario * (i.quantidade : Rat))).sum
      ∧ (∀ i ∈ pedidoC6.itens, i.subtotal = i.preco_unitario * (i.quantidade : Rat))
      ∧ List.Forall₂ (fun (ci : ItemCarrinho) (i : ItemPedido) =>
          i.joia_id = ci.joia_id ∧ i.quantidade = ci.quantidade ∧
          ∃ j, buscarJoia lojaC6.joias ci.joia_id = some j ∧
            i.preco_unitario = j.preco ∧ i.nome_joia = j.nome)
          lojaC6.carrinho.itens pedidoC6.itens) := by
  have h : (criarPedido gwPendente true true "P1" "U1" "pix" "5511" lojaC6).fst
      = .ok pedidoC6 := by
    have hne12 : ("J1" == "J2") = false := by decide
    have hne21 : ("J2" == "J1") = false := by decide
    have heq12 : ¬("J1" = "J2") := by decide
    have heq21 : ¬("J2" = "J1") := by decide
    have hup : upper "pix" = "PIX" := by decide
    norm_num [criarPedido, criarPedidoCore, snapshotItens, buscarJoia, pedidoInicial,
      mkItemPedido, atualizarEstoqueLista, atualizarEstoque, notificarConfirmacao,
      lojaC6, gwPendente, pedidoC6, List.find?, hne12, hne21, heq12, heq21, hup]
  exact ⟨h,
    checkout_total_is_exact_snapshot_sum gwPendente true true "P1" "U1" "pix" "5511" lojaC6
      pedidoC6 h⟩

/-! ### Reconciler lemmas -/

/-- When the dict lookup with a default changes the value, the lookup in
fact hit the table. -/
theorem lookup_getD_ne {t cur : String}
    (h : (STATUS_MAP.lookup t).getD cur ≠ cur) :
    STATUS_MAP.lookup t = some ((STATUS_MAP.lookup t).getD cur) := by
  cases hl : STATUS_MAP.lookup t with
  | none => rw [hl] at h; simp at h
  | some x => simp

/-- Saving an order found by transaction reference with a new status makes
the lookup by the same reference return the updated order. -/
theorem buscar_salvar_status (pedidos : List Pedido) (tid : String) (p : Pedido) (st : String)
    (h : buscarPorTransacaoId pedidos tid = some p) :
    buscarPorTransacaoId (salvarPedido pedidos { p with status := st }) tid
      = some { p with status := st } := by
  unfold buscarPorTransacaoId at h
  unfold buscarPorTransacaoId salvarPedido
  induction pedidos with
  | nil => simp at h
  | cons q resto ih =>
    rw [List.map_cons]
    cases hq : (q.transacao_id == some tid) with
    | true =>
      have hqp : List.find? (fun x => x.transacao_id == some tid) (q :: resto) = some q :=
        List.find?_cons_of_pos _ hq
      rw [hqp] at h
      injection h with h
      subst h
      have hid : (q.id == ({ q with status := st } : Pedido).id) = true := by simp
      rw [if_pos hid]
      exact List.find?_cons_of_pos _ hq
    | false =>
      have hqn : List.find? (fun x => x.transacao_id == some tid) (q :: resto)
          = List.find? (fun x => x.transacao_id == some tid) resto :=
        List.find?_cons_of_neg _ (by simp [hq])
      rw [hqn] at h
      have hp := List.find?_some h
      by_cases hid : (q.id == ({ p with status := st } : Pedido).id) = true
      · rw [if_pos hid]
        exact List.find?_cons_of_pos _ hp
      · rw [if_neg hid]
        have hqn2 : List.find? (fun x => x.transacao_id == some tid)
            (q :: List.map (fun q => if (q.id == ({ p with status := st } : Pedido).id) = true
                then { p with status := st } else q) resto)
            = List.find? (fun x => x.transacao_id == some tid)
                (List.map (fun q => if (q.id == ({ p with status := st } : Pedido).id) = true
                  then { p with status := st } else q) resto) :=
          List.find?_cons_of_neg _ (by simp [hq])
        rw [hqn2]
        exact ih h

/-- The reconciler's idempotence guard: when the mapped target equals the
order's current status, the call returns the state untouched. -/
theorem recon_noop (verificar : String → Except String TransacaoPagamento)
    (w e : Bool) (tid : String) (s : Loja) (t : TransacaoPagamento) (p : Pedido)
    (hver : verificar tid = .ok t)
    (hfind : buscarPorTransacaoId s.pedidos tid = some p)
    (heq : (STATUS_MAP.lookup t.status_pagamento).getD p.status = p.status) :
    atualizarStatusPorTransacao verificar w e tid s = s := by
  unfold atualizarStatusPorTransacao
  rw [hver, hfind]
  simp [heq]

/-- The reconciler's write path: when the mapped target differs from the
current status, the order is saved with the target status, the write is
logged, and approval notifications fire iff the target is `PAGO`. -/
theorem recon_write (verificar : String → Except String TransacaoPagamento)
    (w e : Bool) (tid : String) (s : Loja) (t : TransacaoPagamento) (p : Pedido)
    (hver : verificar tid = .ok t)
    (hfind : buscarPorTransacaoId s.pedidos tid = some p)
    (hne : (STATUS_MAP.lookup t.status_pagamento).getD p.status ≠ p.status) :
    atualizarStatusPorTransacao verificar w e tid s =
      (let novo := (STATUS_MAP.lookup t.status_pagamento).getD p.status
       let s1 : Loja := { s with
         pedidos := salvarPedido s.pedidos { p with status := novo },
         reconSaves := (p.id, novo) :: s.reconSaves }
       if novo == "PAGO" then notificarAprovacao w e p.id s1 else s1) := by
  unfold atualizarStatusPorTransacao
  rw [hver, hfind]
  have hb : (p.status == (STATUS_MAP.lookup t.status_pagamento).getD p.status) = false :=
    beq_eq_false_iff_ne.mpr (Ne.symm hne)
  simp [hb]

/-! ### Claim C4 -/

/-- Claim C4, amended: with the gateway reporting a fixed provider status,
a second reconciliation of the same reference is a complete no-op (the
whole state, including the write log and both notification logs, is
unchanged by the second call); the first call performs exactly one status
write when the mapped target differs from the stored status and none
otherwise; and over both calls each approval channel fires at most
once. -/
theorem reconcile_idempotent_single_write
    (verificar : String → Except String TransacaoPagamento)
    (w e : Bool) (tid : String) (s : Loja) (t : TransacaoPagamento) (p : Pedido)
    (hver : verificar tid = .ok t)
    (hfind : buscarPorTransacaoId s.pedidos tid = some p) :
    atualizarStatusPorTransacao verificar w e tid
        (atualizarStatusPorTransacao verificar w e tid s)
      = atualizarStatusPorTransacao verificar w e tid s
    ∧ ((STATUS_MAP.lookup t.status_pagamento).getD p.status = p.status →
        atualizarStatusPorTransacao verificar w e tid s = s)
    ∧ ((STATUS_MAP.lookup t.status_pagamento).getD p.status ≠ p.status →
        (atualizarStatusPorTransacao verificar w e tid s).reconSaves.length
          = s.reconSaves.length + 1)
    ∧ (atualizarStatusPorTransacao verificar w e tid s).aprovacaoWhats.length
        ≤ s.aprovacaoWhats.length + 1
    ∧ (atualizarStatusPorTransacao verificar w e tid s).aprovacaoEmail.length
        ≤ s.aprovacaoEmail.length + 1 := by
  by_cases hcase : (STATUS_MAP.lookup t.status_pagamento).getD p.status = p.status
  · have h1 := recon_noop verificar w e tid s t p hver hfind hcase
    refine ⟨?_, fun _ => h1, fun hn => absurd hcase hn, ?_, ?_⟩
    · rw [h1]; exact h1
    · rw [h1]; omega
    · rw [h1]; omega
  · have hw := recon_write verificar w e tid s t p hver hfind hcase
    simp only at hw
    set novo := (STATUS_MAP.lookup t.status_pagamento).getD p.status with hnovo
    set s1 : Loja := { s with
      pedidos := salvarPedido s.pedidos { p with status := novo },
      reconSaves := (p.id, novo) :: s.reconSaves } with hs1
    have hlook : STATUS_MAP.lookup t.status_pagamento = some novo := lookup_getD_ne hcase
    have hr : atualizarStatusPorTransacao verificar w e tid s
        = (if (novo == "PAGO") = true then notificarAprovacao w e p.id s1 else s1) := hw
    have hrped : (atualizarStatusPorTransacao verificar w e tid s).pedidos
        = salvarPedido s.pedidos { p with status := novo } := by
      rw [hr]
      by_cases hpago : (novo == "PAGO") = true
      · rw [if_pos hpago]
        exact (notificarAprovacao_preserva w e p.id s1).1
      · rw [if_neg hpago]
    have hrfind : buscarPorTransacaoId
        (atualizarStatusPorTransacao verificar w e tid s).pedidos tid
        = some { p with status := novo } := by
      rw [hrped]
      exact buscar_salvar_status s.pedidos tid p novo hfind
    have hragain : (STATUS_MAP.lookup t.status_pagamento).getD
        ({ p with status := novo } : Pedido).status
        = ({ p with status := novo } : Pedido).status := by
      rw [hlook]
      rfl
    refine ⟨?_, fun hcon => absurd hcon hcase, fun _ => ?_, ?_, ?_⟩
    · exact recon_noop verificar w e tid _ t { p with status := novo } hver hrfind hragain
    · rw [hr]
      by_cases hpago : (novo == "PAGO") = true
      · rw [if_pos hpago]
        rw [(notificarAprovacao_preserva w e p.id s1).2.1]
        rfl
      · rw [if_neg hpago]
        rfl
    · rw [hr]
      by_cases hpago : (novo == "PAGO") = true
      · rw [if_pos hpago]
        exact (notificarAprovacao_bound w e p.id s1).1
      · rw [if_neg hpago]
        exact Nat.le_succ _
    · rw [hr]
      by_cases hpago : (novo == "PAGO") = true
      · rw [if_pos hpago]
        exact (notificarAprovacao_bound w e p.id s1).2
      · rw [if_neg hpago]
        exact Nat.le_succ _

/-- An order already stored as `PAGO`. -/
def pedidoPago : Pedido := ⟨"P3", "U1", "PAGO", 500, "PIX", "5511", [], some "TX-3"⟩

/-- The store holding `pedidoPago`. -/
def lojaC4b : Loja := ⟨[], ⟨[]⟩, [pedidoPago], [], [], [], [], []⟩

/-- A gateway that keeps verifying the transaction as `APROVADO`. -/
def verificarC4b : String → Except String TransacaoPagamento :=
  fun _ => .ok ⟨"TX-3", "APROVADO", 500⟩

/-- Counterexample to C4 as stated: for an order already stored as `PAGO`,
two reconciliations with the gateway reporting `APROVADO` both times
perform zero status writes (the mapped target already equals the stored
status on the first call too), not exactly one. -/
theorem reconcile_zero_writes_when_already_mapped :
    atualizarStatusPorTransacao verificarC4b true true "TX-3"
        (atualizarStatusPorTransacao verificarC4b true true "TX-3" lojaC4b) = lojaC4b
    ∧ (atualizarStatusPorTransacao verificarC4b true true "TX-3" lojaC4b).reconSaves.length = 0
    ∧ (0 : Nat) ≠ 1 := by
  refine ⟨by decide, by decide, by decide⟩

/-- A pending order awaiting its approval webhook. -/
def pedidoC4 : Pedido := ⟨"P2", "U1", "PENDENTE", 500, "PIX", "5511", [], some "TX-2"⟩

/-- The store holding `pedidoC4`. -/
def lojaC4 : Loja := ⟨[], ⟨[]⟩, [pedidoC4], [], [], [], [], []⟩

/-- A gateway that reports the same `APROVADO` verification every time. -/
def verificarC4 : String → Except String TransacaoPagamento :=
  fun _ => .ok ⟨"TX-2", "APROVADO", 500⟩

/-- Witness for C4: the pending order of `lojaC4` reconciled twice against
a stable `APROVADO` verification. -/
theorem reconcile_idempotent_witness :
    (verificarC4 "TX-2" = .ok ⟨"TX-2", "APROVADO", 500⟩
      ∧ buscarPorTransacaoId lojaC4.pedidos "TX-2" = some pedidoC4)
    ∧ (atualizarStatusPorTransacao verificarC4 true true "TX-2"
          (atualizarStatusPorTransacao verificarC4 true true "TX-2" lojaC4)
        = atualizarStatusPorTransacao verificarC4 true true "TX-2" lojaC4
      ∧ ((STATUS_MAP.lookup (TransacaoPagamento.mk "TX-2" "APROVADO" 500).status_pagamento).getD
            pedidoC4.status = pedidoC4.status →
          atualizarStatusPorTransacao verificarC4 true true "TX-2" lojaC4 = lojaC4)
      ∧ ((STATUS_MAP.lookup (TransacaoPagamento.mk "TX-2" "APROVADO" 500).status_pagamento).getD
            pedidoC4.status ≠ pedidoC4.status →
          (atualizarStatusPorTransacao verificarC4 true true "TX-2" lojaC4).reconSaves.length
            = lojaC4.reconSaves.length + 1)
      ∧ (atualizarStatusPorTransacao verificarC4 true true "TX-2" lojaC4).aprovacaoWhats.length
          ≤ lojaC4.aprovacaoWhats.length + 1
      ∧ (atualizarStatusPorTransacao verificarC4 true true "TX-2" lojaC4).aprovacaoEmail.length
          ≤ lojaC4.aprovacaoEmail.length + 1) :=
  ⟨⟨rfl, by decide⟩,
    reconcile_idempotent_single_write verificarC4 true true "TX-2" lojaC4
      ⟨"TX-2", "APROVADO", 500⟩ pedidoC4 rfl (by decide)⟩

/-! ### Claim C3 -/

/-- How `CriarPedido.execute` lets a gateway exception surface: only
`PagamentoFalhouError` is caught and re-raised with the
`Pagamento rejeitado:` prefix; any other exception type propagates
untouched. -/
def propagarErroGateway : GatewayErr → CheckoutErr
  | .pagamentoFalhou m => .pagamentoFalhou ("Pagamento rejeitado: " ++ m)
  | .outro m => .outro m

/-- Claim C3, amended: when the gateway call raises, the checkout aborts
with the state untouched — nothing persisted, no stock change, no
notification — but the surfaced error is `PaymentFailed` only for a
`PagamentoFalhouError`; any other gateway exception propagates to the
caller unnormalized. -/
theorem checkout_gateway_error_aborts_clean
    (gw : Pedido → Except GatewayErr TransacaoPagamento)
    (emailOk whatsOk : Bool) (pid uid tp tel : String) (s : Loja)
    (itens : List ItemPedido) (total : Rat) (ge : GatewayErr)
    (hvazio : s.carrinho.itens.isEmpty = false)
    (hsnap : snapshotItens s.joias s.carrinho.itens = .ok (itens, total))
    (hgw : gw (pedidoInicial pid uid tp tel itens total) = .error ge) :
    criarPedido gw emailOk whatsOk pid uid tp tel s
      = (.error (propagarErroGateway ge), s) := by
  apply criarPedido_error
  unfold criarPedidoCore
  cases ge with
  | pagamentoFalhou m => simp [hvazio, hsnap, hgw, propagarErroGateway]
  | outro m => simp [hvazio, hsnap, hgw, propagarErroGateway]

/-- A gateway raising an infrastructure exception, of a type other than
`PagamentoFalhouError`. -/
def gwQueda : Pedido → Except GatewayErr TransacaoPagamento :=
  fun _ => .error (.outro "Connection reset")

/-- Counterexample to C3 as stated: a gateway exception that is not
`PagamentoFalhouError` surfaces to the checkout caller as itself, not as
the normalized `PaymentFailed` error (`except PagamentoFalhouError` is the
only handler around the gateway call). -/
theorem checkout_gateway_error_not_normalized :
    (criarPedido gwQueda true true "P1" "U1" "pix" "5511" lojaC1).fst
      = .error (.outro "Connection reset")
    ∧ (CheckoutErr.outro "Connection reset").ehPagamentoFalhou = false := by
  refine ⟨by decide, by decide⟩

/-- A gateway rejecting the payment with `PagamentoFalhouError`. -/
def gwRecusado : Pedido → Except GatewayErr TransacaoPagamento :=
  fun _ => .error (.pagamentoFalhou "Cartao recusado")

/-- The snapshot of the single `lojaC1` cart line. -/
def itemC3 : ItemPedido := mkItemPedido "J1" "Anel de Ouro" 100 1

/-- Witness for the amended C3: a `PagamentoFalhouError` from the gateway
is re-raised as the normalized payment failure and the state is returned
untouched. -/
theorem checkout_gateway_error_witness :
    (lojaC1.carrinho.itens.isEmpty = false
      ∧ snapshotItens lojaC1.joias lojaC1.carrinho.itens = .ok ([itemC3], itemC3.subtotal + 0)
      ∧ gwRecusado (pedidoInicial "P1" "U1" "pix" "5511" [itemC3] (itemC3.subtotal + 0))
          = .error (.pagamentoFalhou "Cartao recusado"))
    ∧ criarPedido gwRecusado true true "P1" "U1" "pix" "5511" lojaC1
        = (.error (.pagamentoFalhou "Pagamento rejeitado: Cartao recusado"), lojaC1) :=
  ⟨⟨rfl, rfl, rfl⟩,
    checkout_gateway_error_aborts_clean gwRecusado true true "P1" "U1" "pix" "5511" lojaC1
      [itemC3] (itemC3.subtotal + 0) (.pagamentoFalhou "Cartao recusado") rfl rfl rfl⟩

/-! ### Claim C5 -/

/-- A delivered (`ENTREGUE`) order, terminal in the §4.2 state machine. -/
def pedidoEntregue : Pedido := ⟨"P9", "U9", "ENTREGUE", 100, "PIX", "5511", [], some "TX-9"⟩

/-- The store holding the delivered order. -/
def lojaC5 : Loja := ⟨[], ⟨[]⟩, [pedidoEntregue], [], [], [], [], []⟩

/-- A gateway whose verification reports the provider status `PENDENTE`. -/
def verificarC5 : String → Except String TransacaoPagamento :=
  fun _ => .ok ⟨"TX-9", "PENDENTE", 100⟩

/-- Counterexample to C5 as stated: reconciling a delivered order against
a `PENDENTE` verification silently rewrites its stored status to
`PENDENTE` (one write, no error), and the manual update applies the same
`ENTREGUE → PENDENTE` transition as well — neither path validates the
state-machine edges. -/
theorem illegal_transition_applied_silently :
    (atualizarStatusPorTransacao verificarC5 true true "TX-9" lojaC5).pedidos.map Pedido.status
      = ["PENDENTE"]
    ∧ (atualizarStatusPorTransacao verificarC5 true true "TX-9" lojaC5).reconSaves
      = [("P9", "PENDENTE")]
    ∧ atualizarStatusManual lojaC5.pedidos "P9" "pendente"
      = .ok (⟨"P9", "U9", "PENDENTE", 100, "PIX", "5511", [], some "TX-9"⟩,
             [⟨"P9", "U9", "PENDENTE", 100, "PIX", "5511", [], some "TX-9"⟩]) := by
  refine ⟨by decide, by decide, by decide⟩

/-- Claim C5, amended: the only status validation anywhere is vocabulary
membership plus the equal-status no-op guard.  A manual update to a status
outside `STATUS_VALIDOS` errors without touching the stored orders, but
(i) the reconciler applies every mapped target that differs from the
current status — whatever the pair — as a silent write, and (ii) the
manual update applies every in-vocabulary status that differs from the
current one, with no transition-graph check on either path. -/
theorem status_update_no_transition_validation :
    (∀ (pedidos : List Pedido) (pid st : String),
      STATUS_VALIDOS.contains (upper st) = false →
      atualizarStatusManual pedidos pid st = .error (.statusInvalido st))
    ∧ (∀ (verificar : String → Except String TransacaoPagamento) (w e : Bool)
        (tid : String) (s : Loja) (t : TransacaoPagamento) (p : Pedido) (alvo : String),
        verificar tid = .ok t →
        buscarPorTransacaoId s.pedidos tid = some p →
        STATUS_MAP.lookup t.status_pagamento = some alvo →
        alvo ≠ p.status →
        (atualizarStatusPorTransacao verificar w e tid s).pedidos
          = salvarPedido s.pedidos { p with status := alvo })
    ∧ (∀ (pedidos : List Pedido) (pid st : String) (p : Pedido),
        buscarPedidoPorId pedidos pid = some p →
        STATUS_VALIDOS.contains (upper st) = true →
        upper st ≠ p.status →
        atualizarStatusManual pedidos pid st
          = .ok ({ p with status := upper st },
                 salvarPedido pedidos { p with status := upper st })) := by
  refine ⟨?_, ?_, ?_⟩
  · intro pedidos pid st hval
    unfold atualizarStatusManual
    have hmem : upper st ∉ STATUS_VALIDOS := by simpa using hval
    simp [hmem]
  · intro verificar w e tid s t p alvo hver hfind hlook hne
    have hgetd : (STATUS_MAP.lookup t.status_pagamento).getD p.status = alvo := by
      rw [hlook]; rfl
    have hne2 : (STATUS_MAP.lookup t.status_pagamento).getD p.status ≠ p.status := by
      rw [hgetd]; exact hne
    have hw := recon_write verificar w e tid s t p hver hfind hne2
    simp only at hw
    rw [hw, hgetd]
    by_cases hpago : ((alvo == "PAGO") = true)
    · rw [if_pos hpago]
      rw [(notificarAprovacao_preserva w e p.id _).1]
    · rw [if_neg hpago]
  · intro pedidos pid st p hfind hval hne
    unfold atualizarStatusManual
    have hb : (p.status == upper st) = false := beq_eq_false_iff_ne.mpr (Ne.symm hne)
    have hmem : upper st ∈ STATUS_VALIDOS := by simpa using hval
    simp [hmem, hfind, hb]

/-- Witness for the amended C5 at the delivered order of `lojaC5`. -/
theorem status_update_no_transition_validation_witness :
    (STATUS_VALIDOS.contains (upper "FOO") = false
      ∧ atualizarStatusManual lojaC5.pedidos "P9" "FOO" = .error (.statusInvalido "FOO"))
    ∧ (verificarC5 "TX-9" = .ok ⟨"TX-9", "PENDENTE", 100⟩
      ∧ buscarPorTransacaoId lojaC5.pedidos "TX-9" = some pedidoEntregue
      ∧ STATUS_MAP.lookup "PENDENTE" = some "PENDENTE"
      ∧ "PENDENTE" ≠ pedidoEntregue.status
      ∧ (atualizarStatusPorTransacao verificarC5 true true "TX-9" lojaC5).pedidos
          = salvarPedido lojaC5.pedidos { pedidoEntregue with status := "PENDENTE" })
    ∧ (buscarPedidoPorId lojaC5.pedidos "P9" = some pedidoEntregue
      ∧ STATUS_VALIDOS.contains (upper "pendente") = true
      ∧ upper "pendente" ≠ pedidoEntregue.status
      ∧ atualizarStatusManual lojaC5.pedidos "P9" "pendente"
          = .ok ({ pedidoEntregue with status := upper "pendente" },
                 salvarPedido lojaC5.pedidos { pedidoEntregue with status := upper "pendente" })) :=
  ⟨⟨by decide,
    status_update_no_transition_validation.1 lojaC5.pedidos "P9" "FOO" (by decide)⟩,
   ⟨rfl, by decide, by decide, by decide,
    status_update_no_transition_validation.2.1 verificarC5 true true "TX-9" lojaC5
      ⟨"TX-9", "PENDENTE", 100⟩ pedidoEntregue "PENDENTE" rfl (by decide) (by decide) (by decide)⟩,
   ⟨by decide, by decide, by decide,
    status_update_no_transition_validation.2.2 lojaC5.pedidos "P9" "pendente" pedidoEntregue
      (by decide) (by decide) (by decide)⟩⟩

/-! ### Claim C8 -/

/-- Whether the checkout returned an order. -/
def resultadoOk : Except CheckoutErr Pedido → Bool
  | .ok _ => true
  | .error _ => false

/-- Counterexample to C8 as stated: with a working messaging channel and a
failing e-mail channel, a fully successful checkout (order persisted,
stock decremented, cart cleared, order returned) dispatches neither
notification — both calls sit in one `try` block with e-mail first, so an
e-mail failure suppresses the messaging dispatch; the channels are not
isolated from each other. -/
theorem checkout_email_failure_suppresses_whatsapp :
    resultadoOk (criarPedido gwAprovado false true "P1" "U1" "pix" "5511" lojaC1).fst = true
    ∧ (criarPedido gwAprovado false true "P1" "U1" "pix" "5511" lojaC1).snd.pedidos.map
        Pedido.status = ["APROVADO"]
    ∧ (criarPedido gwAprovado false true "P1" "U1" "pix" "5511" lojaC1).snd.joias.map
        Joia.estoque = [4]
    ∧ (criarPedido gwAprovado false true "P1" "U1" "pix" "5511" lojaC1).snd.carrinho.itens = []
    ∧ (criarPedido gwAprovado false true "P1" "U1" "pix" "5511" lojaC1).snd.confirmacaoEmail = []
    ∧ (criarPedido gwAprovado false true "P1" "U1" "pix" "5511" lojaC1).snd.confirmacaoWhats = [] := by
  refine ⟨by decide, by decide, by decide, by decide, by decide, by decide⟩

/-- Claim C8, amended: after a successful checkout core (steps 1–6),
notification failures never change the returned order and never roll back
the persisted order, stock or cart; the e-mail confirmation is dispatched
iff its channel works, but the messaging confirmation is dispatched iff
*both* channels work — in the checkout the two calls share one exception
handler, e-mail first.  (In the reconciler, by contrast, each approval
channel is dispatched independently of the other.) -/
theorem checkout_notifications_best_effort
    (gw : Pedido → Except GatewayErr TransacaoPagamento)
    (pid uid tp tel : String) (s : Loja) (p : Pedido) (s1 : Loja)
    (h : criarPedidoCore gw pid uid tp tel s = (.ok p, s1)) :
    ∀ emailOk whatsOk : Bool,
      criarPedido gw emailOk whatsOk pid uid tp tel s
        = (.ok p, notificarConfirmacao emailOk whatsOk pid s1)
      ∧ (notificarConfirmacao emailOk whatsOk pid s1).pedidos = s1.pedidos
      ∧ (notificarConfirmacao emailOk whatsOk pid s1).joias = s1.joias
      ∧ (notificarConfirmacao emailOk whatsOk pid s1).carrinho = s1.carrinho
      ∧ (notificarConfirmacao emailOk whatsOk pid s1).confirmacaoEmail
          = (if emailOk then pid :: s1.confirmacaoEmail else s1.confirmacaoEmail)
      ∧ (notificarConfirmacao emailOk whatsOk pid s1).confirmacaoWhats
          = (if emailOk && whatsOk then pid :: s1.confirmacaoWhats else s1.confirmacaoWhats)
      ∧ (∀ (w2 e2 : Bool) (oid : String) (s2 : Loja),
          (notificarAprovacao w2 e2 oid s2).aprovacaoWhats
            = (if w2 then oid :: s2.aprovacaoWhats else s2.aprovacaoWhats)
          ∧ (notificarAprovacao w2 e2 oid s2).aprovacaoEmail
            = (if e2 then oid :: s2.aprovacaoEmail else s2.aprovacaoEmail)) := by
  intro emailOk whatsOk
  refine ⟨?_, ?_, ?_, ?_, ?_, ?_, ?_⟩
  · unfold criarPedido
    rw [h]
  · cases emailOk <;> cases whatsOk <;> simp [notificarConfirmacao]
  · cases emailOk <;> cases whatsOk <;> simp [notificarConfirmacao]
  · cases emailOk <;> cases whatsOk <;> simp [notificarConfirmacao]
  · cases emailOk <;> cases whatsOk <;> simp [notificarConfirmacao]
  · cases emailOk <;> cases whatsOk <;> simp [notificarConfirmacao]
  · intro w2 e2 oid s2
    cases w2 <;> cases e2 <;> simp [notificarAprovacao]

/-- The snapshot of the `lojaC1` cart line, for the C8 witness. -/
def itemC8 : ItemPedido := mkItemPedido "J1" "Anel de Ouro" 100 1

/-- The order produced by a successful checkout on `lojaC1`. -/
def pedidoC8 : Pedido :=
  { pedidoInicial "P1" "U1" "pix" "5511" [itemC8] (itemC8.subtotal + 0) with
    status := "APROVADO", transacao_id := some "TX-1" }

/-- The state after the checkout core on `lojaC1`: order persisted, stock
decremented to 4, cart cleared, nothing notified yet. -/
def lojaC8 : Loja :=
  ⟨[⟨"J1", "Anel de Ouro", 100, 4, true⟩], ⟨[]⟩, [pedidoC8], [], [], [], [], []⟩

/-- Witness for the amended C8: the successful checkout core on `lojaC1`,
then the notification step with a failing e-mail channel and a working
messaging channel. -/
theorem checkout_notifications_best_effort_witness :
    criarPedidoCore gwAprovado "P1" "U1" "pix" "5511" lojaC1 = (.ok pedidoC8, lojaC8)
    ∧ (criarPedido gwAprovado false true "P1" "U1" "pix" "5511" lojaC1
        = (.ok pedidoC8, notificarConfirmacao false true "P1" lojaC8)
      ∧ (notificarConfirmacao false true "P1" lojaC8).pedidos = lojaC8.pedidos
      ∧ (notificarConfirmacao false true "P1" lojaC8).joias = lojaC8.joias
      ∧ (notificarConfirmacao false true "P1" lojaC8).carrinho = lojaC8.carrinho
      ∧ (notificarConfirmacao false true "P1" lojaC8).confirmacaoEmail
          = (if false then "P1" :: lojaC8.confirmacaoEmail else lojaC8.confirmacaoEmail)
      ∧ (notificarConfirmacao false true "P1" lojaC8).confirmacaoWhats
          = (if false && true then "P1" :: lojaC8.confirmacaoWhats else lojaC8.confirmacaoWhats)
      ∧ (∀ (w2 e2 : Bool) (oid : String) (s2 : Loja),
          (notificarAprovacao w2 e2 oid s2).aprovacaoWhats
            = (if w2 then oid :: s2.aprovacaoWhats else s2.aprovacaoWhats)
          ∧ (notificarAprovacao w2 e2 oid s2).aprovacaoEmail
            = (if e2 then oid :: s2.aprovacaoEmail else s2.aprovacaoEmail))) :=
  ⟨rfl, checkout_notifications_best_effort gwAprovado "P1" "U1" "pix" "5511" lojaC1
    pedidoC8 lojaC8 rfl false true⟩

/-! ### Claim C9 -/

/-- Counterexample to C9 as stated: `AdicionarItemAoCarrinho.execute` with
a requested quantity of 0 (stored stock 5, empty cart) succeeds and stores
a cart line with quantity 0 — it neither rejects the non-positive request
nor removes the line. -/
theorem additem_stores_nonpositive_quantity :
    adicionarItemAoCarrinho [⟨"J1", "Anel", 50, 5, true⟩] ⟨[]⟩ "J1" 0
      = .ok ⟨[⟨"J1", 0, 50⟩]⟩
    ∧ ¬(1 ≤ (0 : Int)) := by
  refine ⟨by decide, by decide⟩

/-- Claim C9, amended: the quantity-≥-1 invariant is preserved by the core
cart mutations only for positive requests — `AdicionarItemAoCarrinho`
performs no positivity check and stores a non-positive requested quantity
as-is.  For requests of at least 1 the add (merging included) and the
remove keep every remaining line's quantity ≥ 1, and the
remove-on-non-positive behavior lives in the session manager's
`update_quantity`, which removes the product's line entirely whenever the
requested quantity is ≤ 0. -/
theorem cart_quantity_invariant_qualified :
    (∀ (joias : List Joia) (carrinho : Carrinho) (joia_id : String) (q : Int) (c2 : Carrinho),
      1 ≤ q → (∀ it ∈ carrinho.itens, 1 ≤ it.quantidade) →
      adicionarItemAoCarrinho joias carrinho joia_id q = .ok c2 →
      ∀ it ∈ c2.itens, 1 ≤ it.quantidade)
    ∧ (∀ (carrinho : Carrinho) (joia_id : String) (c2 : Carrinho),
        (∀ it ∈ carrinho.itens, 1 ≤ it.quantidade) →
        removerItemDoCarrinho carrinho joia_id = .ok c2 →
        ∀ it ∈ c2.itens, 1 ≤ it.quantidade)
    ∧ (∀ (joias : List Joia) (carrinho : Carrinho) (joia_id : String) (q : Int) (j : Joia),
        buscarJoia joias joia_id = some j → j.ativa = true → q ≤ 0 →
        ∀ it ∈ (updateQuantity joias carrinho joia_id q).itens, it.joia_id ≠ joia_id) := by
  refine ⟨?_, ?_, ?_⟩
  · intro joias carrinho joia_id q c2 hq hinv hadd it hit
    unfold adicionarItemAoCarrinho at hadd
    cases hb : buscarJoia joias joia_id with
    | none => rw [hb] at hadd; simp at hadd
    | some j =>
      rw [hb] at hadd
      dsimp only at hadd
      cases hf : carrinho.itens.find? (fun item => item.joia_id == joia_id) with
      | none =>
        rw [hf] at hadd
        dsimp only at hadd
        by_cases hst : j.estoque < q
        · simp [hst] at hadd
        · rw [if_neg hst] at hadd
          injection hadd with hadd
          subst hadd
          rcases List.mem_append.mp hit with hl | hr
          · exact hinv it hl
          · have : it = (⟨j.id, q, j.preco⟩ : ItemCarrinho) := by simpa using hr
            subst this
            exact hq
      | some item =>
        rw [hf] at hadd
        dsimp only at hadd
        by_cases hst : j.estoque < q + item.quantidade
        · simp [hst] at hadd
        · rw [if_neg hst] at hadd
          injection hadd with hadd
          subst hadd
          rcases List.mem_map.mp hit with ⟨it0, hit0, hfit⟩
          have hitem : 1 ≤ item.quantidade :=
            hinv item (List.mem_of_find?_eq_some hf)
          by_cases hc : (it0.joia_id == joia_id) = true
          · rw [if_pos hc] at hfit
            subst hfit
            dsimp only
            omega
          · rw [if_neg hc] at hfit
            subst hfit
            exact hinv it0 hit0
  · intro carrinho joia_id c2 hinv hrem it hit
    unfold removerItemDoCarrinho at hrem
    cases hvz : carrinho.itens.isEmpty with
    | true => rw [hvz] at hrem; simp at hrem
    | false =>
      rw [hvz] at hrem
      simp only [Bool.false_eq_true, if_false] at hrem
      cases hfnd : carrinho.itens.find? (fun item => item.joia_id == joia_id) with
      | none => rw [hfnd] at hrem; simp at hrem
      | some item =>
        rw [hfnd] at hrem
        injection hrem with hrem
        subst hrem
        exact hinv it (List.mem_of_mem_erase hit)
  · intro joias carrinho joia_id q j hb hav hq0 it hit
    unfold updateQuantity at hit
    rw [hb] at hit
    dsimp only at hit
    rw [hav] at hit
    simp only [Bool.not_true, Bool.false_eq_true, if_false] at hit
    rw [if_pos hq0] at hit
    have hcond := (List.mem_filter.mp hit).2
    simpa using hcond

/-- A one-product catalog for the C9 witness. -/
def joiasC9 : List Joia := [⟨"J1", "Anel", 50, 5, true⟩]

/-- A cart already holding one unit of the product. -/
def carrinhoC9 : Carrinho := ⟨[⟨"J1", 1, 50⟩]⟩

/-- Witness for the amended C9: a positive add merges 1 + 2 into 3, the
remove empties the cart, and the session manager's `update_quantity` with
a request of 0 removes the product's line. -/
theorem cart_quantity_invariant_witness :
    ((1 : Int) ≤ 2
      ∧ (∀ it ∈ carrinhoC9.itens, 1 ≤ it.quantidade)
      ∧ adicionarItemAoCarrinho joiasC9 carrinhoC9 "J1" 2 = .ok ⟨[⟨"J1", 3, 50⟩]⟩
      ∧ (∀ it ∈ (Carrinho.mk [⟨"J1", 3, 50⟩]).itens, 1 ≤ it.quantidade))
    ∧ (removerItemDoCarrinho carrinhoC9 "J1" = .ok ⟨[]⟩
      ∧ (∀ it ∈ (Carrinho.mk []).itens, 1 ≤ it.quantidade))
    ∧ (buscarJoia joiasC9 "J1" = some ⟨"J1", "Anel", 50, 5, true⟩
      ∧ (0 : Int) ≤ 0
      ∧ (∀ it ∈ (updateQuantity joiasC9 carrinhoC9 "J1" 0).itens, it.joia_id ≠ "J1")) :=
  ⟨⟨by decide, by decide, by decide,
    cart_quantity_invariant_qualified.1 joiasC9 carrinhoC9 "J1" 2 ⟨[⟨"J1", 3, 50⟩]⟩
      (by decide) (by decide) (by decide)⟩,
   ⟨by decide,
    cart_quantity_invariant_qualified.2.1 carrinhoC9 "J1" ⟨[]⟩ (by decide) (by decide)⟩,
   ⟨by decide, by decide,
    cart_quantity_invariant_qualified.2.2 joiasC9 carrinhoC9 "J1" 0 ⟨"J1", "Anel", 50, 5, true⟩
      (by decide) (by decide) (by decide)⟩⟩

end VeJoias
